import Mathlib

/-!
Shallow embedding of the light HAL in `src/light/Light.h` and
`src/light/Light.cpp` (device `xiaomi_onc`).

Machine integers are modelled as `Nat`: on `uint32_t` values, `x >> n` is
`x / 2 ^ n`, `x & 0xFF` is `x % 0x100`, `x & 0x00FFFFFF` is `x % 0x1000000`,
and a multiplication that can exceed `2 ^ 32` is reduced `% 0x100000000`.
Device-file writes are modelled as an explicit trace (a `List Write`); the
readable-or-not state of the two `max_brightness` attributes is an `Env`.
Handler function pointers form the closed two-variant type `Handler`.
-/

namespace LightHAL

/-- `Type` from `android.hardware.light@2.0` (the name `Type` is reserved in
Lean, hence `LightType`).  Only four of the values are configured in
`Light::backends`. -/
inductive LightType
  | BACKLIGHT
  | KEYBOARD
  | BUTTONS
  | BATTERY
  | NOTIFICATIONS
  | ATTENTION
  | BLUETOOTH
  | WIFI
  deriving DecidableEq, Repr

/-- `Flash` from `android.hardware.light@2.0`. -/
inductive Flash
  | NONE
  | TIMED
  | HARDWARE
  deriving DecidableEq, Repr

/-- `LightState`: 32-bit ARGB color plus flash parameters. -/
structure LightState where
  color : Nat
  flashMode : Flash
  flashOnMs : Nat
  flashOffMs : Nat
  deriving DecidableEq, Repr

/-- The two render handlers a `LightStateHandler` pointer can reference. -/
inductive Handler
  | backlight
  | notification
  deriving DecidableEq, Repr

/-- `LightBackend` from `Light.h`: a type, its cached state, its handler. -/
structure LightBackend where
  type : LightType
  state : LightState
  handler : Handler
  deriving DecidableEq, Repr

/-- `Status` from `android.hardware.light@2.0` (the two values used). -/
inductive Status
  | SUCCESS
  | LIGHT_NOT_SUPPORTED
  deriving DecidableEq, Repr

/-- One device-file write: attribute path and the integer value written. -/
structure Write where
  path : String
  value : Nat
  deriving DecidableEq, Repr

/-- Whether the two `max_brightness` attribute files are readable, and the
value read when they are (`readFile` returning `std::nullopt` is `none`). -/
structure Env where
  lcdMax : Option Nat
  whiteMax : Option Nat

def LEDS : String := "/sys/class/leds/"

def LCD_LED : String := LEDS ++ "lcd-backlight/"

def WHITE_LED : String := LEDS ++ "red/"

def BREATH : String := "breath"

def BRIGHTNESS : String := "brightness"

def DELAY_OFF : String := "delay_off"

def DELAY_ON : String := "delay_on"

/-- `getBrightness` (Light.cpp:73-86): ARGB extraction, alpha premultiply
with integer truncation when alpha is not `0xFF`, then the luma weighting
`(77 r + 150 g + 29 b) >> 8`.  All intermediates stay below `2 ^ 32`, so the
`uint32_t` arithmetic is exact on `Nat`. -/
def getBrightness (state : LightState) : Nat :=
  let alpha := state.color / 0x1000000 % 0x100
  let red0 := state.color / 0x10000 % 0x100
  let green0 := state.color / 0x100 % 0x100
  let blue0 := state.color % 0x100
  let red := if alpha ≠ 0xFF then red0 * alpha / 0xFF else red0
  let green := if alpha ≠ 0xFF then green0 * alpha / 0xFF else green0
  let blue := if alpha ≠ 0xFF then blue0 * alpha / 0xFF else blue0
  (77 * red + 150 * green + 29 * blue) / 0x100

/-- `scaleBrightness` (Light.cpp:88-90): `(brightness * maxBrightness) / 255`
in `uint32_t`, so the product wraps modulo `2 ^ 32` before the division. -/
def scaleBrightness (brightness maxBrightness : Nat) : Nat :=
  brightness * maxBrightness % 0x100000000 / 255

/-- `getScaledBrightness` (Light.cpp:92-94). -/
def getScaledBrightness (state : LightState) (maxBrightness : Nat) : Nat :=
  scaleBrightness (getBrightness state) maxBrightness

/-- `isLit` (Light.cpp:120-122): `state.color & 0x00ffffff` as a Bool. -/
def isLit (state : LightState) : Bool :=
  state.color % 0x1000000 != 0

/-- `handleBacklight` (Light.cpp:96-102): read the LCD `max_brightness`; if
readable, write the scaled brightness to the LCD `brightness` attribute;
otherwise no write at all. -/
def handleBacklight (env : Env) (state : LightState) : List Write :=
  match env.lcdMax with
  | none => []
  | some maxBrightness =>
      [⟨LCD_LED ++ BRIGHTNESS, getScaledBrightness state maxBrightness⟩]

/-- `handleNotification` (Light.cpp:104-118): read the white LED
`max_brightness`; if readable, write `breath = 0`, then for `TIMED` the
`delay_off`, `delay_on`, `breath = 1` sequence, else the scaled brightness;
if unreadable, no write at all. -/
def handleNotification (env : Env) (state : LightState) : List Write :=
  match env.whiteMax with
  | none => []
  | some maxBrightness =>
      let whiteBrightness := getScaledBrightness state maxBrightness
      ⟨WHITE_LED ++ BREATH, 0⟩ ::
        (if state.flashMode = Flash.TIMED then
          [⟨WHITE_LED ++ DELAY_OFF, state.flashOffMs⟩,
           ⟨WHITE_LED ++ DELAY_ON, state.flashOnMs⟩,
           ⟨WHITE_LED ++ BREATH, 1⟩]
        else
          [⟨WHITE_LED ++ BRIGHTNESS, whiteBrightness⟩])

/-- Dispatch through a `LightStateHandler` pointer. -/
def applyHandler (env : Env) : Handler → LightState → List Write
  | Handler.backlight, state => handleBacklight env state
  | Handler.notification, state => handleNotification env state

/-- The initial cached state of every backend: `state{0xff000000}` in the
`LightBackend` constructor — opaque black, flash mode `NONE`. -/
def initialLightState : LightState :=
  ⟨0xff000000, Flash.NONE, 0, 0⟩

/-- `Light::backends` (Light.h:82-87), in construction (priority) order. -/
def initialBackends : List LightBackend :=
  [⟨LightType.ATTENTION, initialLightState, Handler.notification⟩,
   ⟨LightType.NOTIFICATIONS, initialLightState, Handler.notification⟩,
   ⟨LightType.BATTERY, initialLightState, Handler.notification⟩,
   ⟨LightType.BACKLIGHT, initialLightState, Handler.backlight⟩]

/-- The first loop of `Light::setLight` (Light.cpp:140-145): every backend
whose type matches has its cached state overwritten. -/
def updateBackends (ty : LightType) (st : LightState)
    (bs : List LightBackend) : List LightBackend :=
  bs.map (fun b => if b.type = ty then { b with state := st } else b)

/-- The `handler` local of the first loop: set on each match, so it ends as
the handler of the last backend whose type matches (`nullptr` if none). -/
def findHandler (ty : LightType) (bs : List LightBackend) : Option Handler :=
  ((bs.filter (fun b => decide (b.type = ty))).getLast?).map
    (fun b => b.handler)

/-- The second loop of `Light::setLight` (Light.cpp:153-159): the first
backend sharing the handler whose cached state is lit. -/
def findLit (h : Handler) (bs : List LightBackend) : Option LightState :=
  (bs.find? (fun b => decide (b.handler = h) && isLit b.state)).map
    (fun b => b.state)

/-- `Light::setLight` from Light.cpp:132-167.  Returns the status, the
backend list after the cache update, and the handler invocations performed
(handler pointer with the state it is called on); the device writes are
obtained by running the invocations against an `Env`. -/
def setLight (bs : List LightBackend) (ty : LightType) (st : LightState) :
    Status × List LightBackend × List (Handler × LightState) :=
  let bs' := updateBackends ty st bs
  match findHandler ty bs' with
  | none => (Status.LIGHT_NOT_SUPPORTED, bs', [])
  | some h =>
      match findLit h bs' with
      | some winner => (Status.SUCCESS, bs', [(h, winner)])
      | none => (Status.SUCCESS, bs', [(h, st)])

/-- `Light::setLight` as defined inline in Light.h:56-69: on the first
backend whose type matches, overwrite its cached state and invoke its
handler directly on the just-given state; no cross-type arbitration. -/
def setLightHeader (ty : LightType) (st : LightState) :
    List LightBackend → Status × List LightBackend × List (Handler × LightState)
  | [] => (Status.LIGHT_NOT_SUPPORTED, [], [])
  | b :: bs =>
      if b.type = ty then
        (Status.SUCCESS, { b with state := st } :: bs, [(b.handler, st)])
      else
        let r := setLightHeader ty st bs
        (r.1, b :: r.2.1, r.2.2)

/-- The device writes produced by a list of handler invocations. -/
def setLightWrites (env : Env) (invs : List (Handler × LightState)) :
    List Write :=
  invs.foldr (fun i acc => applyHandler env i.1 i.2 ++ acc) []

/-- `Light::getSupportedTypes` (Light.cpp:169-184): the types of the
backends, in order, delivered to the callback; no state is touched. -/
def getSupportedTypes (bs : List LightBackend) : List LightType :=
  bs.map (fun b => b.type)

/-- A sequence of `setLight` calls threaded through the backend state. -/
def runCalls (bs : List LightBackend) :
    List (LightType × LightState) → List LightBackend
  | [] => bs
  | c :: cs => runCalls (setLight bs c.1 c.2).2.1 cs

/-- Modelled from the spec (§4.1): scan all backends whose handler equals
the matching backend's handler, in order, and select the first whose state
`isLit`; used to compare the code's arbitration against the spec's words. -/
def resolveSpec (h : Handler) (bs : List LightBackend) : Option LightState :=
  ((bs.filter (fun b => decide (b.handler = h))).find?
    (fun b => isLit b.state)).map (fun b => b.state)

/-- Modelled from the spec (§4.2): the luma reference definition, written
following the spec's wording, to compare against `getBrightness`. -/
def lumaRef (color : Nat) : Nat :=
  let alpha := color / 0x1000000 % 0x100
  let red := color / 0x10000 % 0x100
  let green := color / 0x100 % 0x100
  let blue := color % 0x100
  if alpha ≠ 0xFF then
    (77 * (red * alpha / 255) + 150 * (green * alpha / 255)
      + 29 * (blue * alpha / 255)) / 2 ^ 8
  else
    (77 * red + 150 * green + 29 * blue) / 2 ^ 8

/-- The state of the most recent call for a given type in a call sequence
(later calls take precedence), `none` when the type was never set. -/
def lastSet (ty : LightType) : List (LightType × LightState) → Option LightState
  | [] => none
  | c :: cs =>
      match lastSet ty cs with
      | some s => some s
      | none => if c.1 = ty then some c.2 else none

/-- The effect of a call sequence on one backend record: each matching call
overwrites the cached state in turn. -/
def applyCallsTo (b : LightBackend) (calls : List (LightType × LightState)) :
    LightBackend :=
  calls.foldl
    (fun b c => if b.type = c.1 then { b with state := c.2 } else b) b

/-- The four configured types, in construction order. -/
def supportedTypes : List LightType :=
  [LightType.ATTENTION, LightType.NOTIFICATIONS, LightType.BATTERY,
   LightType.BACKLIGHT]

lemma setLight_backends (bs : List LightBackend) (ty : LightType)
    (st : LightState) : (setLight bs ty st).2.1 = updateBackends ty st bs := by
  simp only [setLight]
  cases h1 : findHandler ty (updateBackends ty st bs) with
  | none => rfl
  | some h => cases h2 : findLit h (updateBackends ty st bs) <;> simp [h2]

lemma getSupportedTypes_update (ty : LightType) (st : LightState)
    (bs : List LightBackend) :
    getSupportedTypes (updateBackends ty st bs) = getSupportedTypes bs := by
  unfold getSupportedTypes updateBackends
  rw [List.map_map]
  apply List.map_congr_left
  intro b _
  by_cases h : b.type = ty <;> simp [h]

lemma getSupportedTypes_runCalls (calls : List (LightType × LightState)) :
    ∀ bs, getSupportedTypes (runCalls bs calls) = getSupportedTypes bs := by
  induction calls with
  | nil => intro bs; rfl
  | cons c cs ih =>
      intro bs
      rw [runCalls, ih, setLight_backends, getSupportedTypes_update]

lemma getBrightness_le (st : LightState) : getBrightness st ≤ 255 := by
  have key : ∀ r g b : Nat, r ≤ 255 → g ≤ 255 → b ≤ 255 →
      (77 * r + 150 * g + 29 * b) / 0x100 ≤ 255 := by
    intro r g b hr hg hb
    have hsum : 77 * r + 150 * g + 29 * b ≤ 65280 := by omega
    calc (77 * r + 150 * g + 29 * b) / 0x100 ≤ 65280 / 0x100 :=
          Nat.div_le_div_right hsum
      _ = 255 := by norm_num
  have hpre : ∀ x a : Nat, x ≤ 255 → a ≤ 255 → x * a / 0xFF ≤ 255 := by
    intro x a hx ha
    have hxa : x * a ≤ 255 * 255 := Nat.mul_le_mul hx ha
    calc x * a / 0xFF ≤ 255 * 255 / 0xFF := Nat.div_le_div_right hxa
      _ = 255 := by norm_num
  have hmod : ∀ x : Nat, x % 0x100 ≤ 255 := fun x =>
    Nat.le_of_lt_succ (Nat.mod_lt _ (by norm_num))
  simp only [getBrightness]
  by_cases hα : st.color / 0x1000000 % 0x100 ≠ 0xFF
  · rw [if_pos hα, if_pos hα, if_pos hα]
    exact key _ _ _ (hpre _ _ (hmod _) (hmod _)) (hpre _ _ (hmod _) (hmod _))
      (hpre _ _ (hmod _) (hmod _))
  · rw [if_neg hα, if_neg hα, if_neg hα]
    exact key _ _ _ (hmod _) (hmod _) (hmod _)

lemma scaleBrightness_le (l m : Nat) (hl : l ≤ 255) :
    scaleBrightness l m ≤ m := by
  unfold scaleBrightness
  rcases lt_or_ge (l * m) 0x100000000 with h | h
  · rw [Nat.mod_eq_of_lt h]
    calc l * m / 255 ≤ 255 * m / 255 :=
          Nat.div_le_div_right (Nat.mul_le_mul_right m hl)
      _ = m := by rw [Nat.mul_div_cancel_left _ (by norm_num)]
  · have h255 : 0x100000000 ≤ 255 * m :=
      le_trans h (Nat.mul_le_mul_right m hl)
    have hbig : l * m % 0x100000000 < 0x100000000 := Nat.mod_lt _ (by norm_num)
    omega

lemma updateBackends_id (ty : LightType) (st : LightState)
    (bs : List LightBackend) (h : ∀ b ∈ bs, b.type ≠ ty) :
    updateBackends ty st bs = bs := by
  unfold updateBackends
  conv_rhs => rw [← List.map_id bs]
  apply List.map_congr_left
  intro b hb
  simp [h b hb]

lemma findHandler_none (ty : LightType) (bs : List LightBackend)
    (h : ∀ b ∈ bs, b.type ≠ ty) : findHandler ty bs = none := by
  unfold findHandler
  have hnil : bs.filter (fun b => decide (b.type = ty)) = [] :=
    List.filter_eq_nil_iff.mpr (by intro a ha; simp [h a ha])
  rw [hnil]
  rfl

lemma exists_backend_of_mem_types (ty : LightType) (bs : List LightBackend)
    (h : ty ∈ getSupportedTypes bs) : ∃ b ∈ bs, b.type = ty := by
  unfold getSupportedTypes at h
  rcases List.mem_map.mp h with ⟨b, hb, hbt⟩
  exact ⟨b, hb, hbt⟩

lemma findHandler_isSome (ty : LightType) (bs : List LightBackend)
    (h : ∃ b ∈ bs, b.type = ty) : ∃ hd, findHandler ty bs = some hd := by
  unfold findHandler
  rcases h with ⟨b, hb, hbt⟩
  have hne : bs.filter (fun b => decide (b.type = ty)) ≠ [] := by
    intro hnil
    have := List.filter_eq_nil_iff.mp hnil b hb
    simp [hbt] at this
  rcases hx : (bs.filter (fun b => decide (b.type = ty))).getLast? with _ | x
  · rw [List.getLast?_eq_none_iff] at hx
    exact absurd hx hne
  · exact ⟨x.handler, by rw [hx]; rfl⟩

lemma setLight_fst (bs : List LightBackend) (ty : LightType)
    (st : LightState) :
    (setLight bs ty st).1
      = (match findHandler ty (updateBackends ty st bs) with
          | none => Status.LIGHT_NOT_SUPPORTED
          | some _ => Status.SUCCESS) := by
  simp only [setLight]
  cases h1 : findHandler ty (updateBackends ty st bs) with
  | none => rfl
  | some h => cases h2 : findLit h (updateBackends ty st bs) <;> simp [h2]

lemma setLight_status_success (bs : List LightBackend) (ty : LightType)
    (st : LightState) (hex : ∃ b ∈ bs, b.type = ty) :
    (setLight bs ty st).1 = Status.SUCCESS := by
  rcases hex with ⟨b, hb, hbt⟩
  have hb' : ({ b with state := st } : LightBackend) ∈ updateBackends ty st bs := by
    unfold updateBackends
    refine List.mem_map.mpr ⟨b, hb, ?_⟩
    rw [if_pos hbt]
  rcases findHandler_isSome ty _ ⟨_, hb', hbt⟩ with ⟨hd, hhd⟩
  rw [setLight_fst, hhd]

lemma types_runCalls (calls : List (LightType × LightState)) :
    getSupportedTypes (runCalls initialBackends calls) = supportedTypes := by
  rw [getSupportedTypes_runCalls]
  rfl

lemma setLight_invocations (bs : List LightBackend) (ty : LightType)
    (st : LightState) (h : Handler)
    (hh : findHandler ty (updateBackends ty st bs) = some h) :
    (setLight bs ty st).2.2
      = [(h, (findLit h (updateBackends ty st bs)).getD st)] := by
  simp only [setLight]
  rw [hh]
  cases h2 : findLit h (updateBackends ty st bs) <;> simp [h2]

lemma findLit_eq_resolveSpec (h : Handler) (bs : List LightBackend) :
    findLit h bs = resolveSpec h bs := by
  unfold findLit resolveSpec
  induction bs with
  | nil => rfl
  | cons b bs ih =>
      by_cases h1 : b.handler = h
      · by_cases h2 : isLit b.state = true
        · simp [h1, h2]
        · simp only [Bool.not_eq_true] at h2
          simp [h1, h2, ih]
      · simp [h1, ih]

/-- C1: whenever some backend has the requested type, `setLight` performs
exactly one handler invocation, with the cached state selected by the
spec's scan (the first backend sharing the handler whose state is lit,
falling back to the just-set state); in particular setting ATTENTION lit
and then NOTIFICATIONS makes the second call invoke `handleNotification`
with ATTENTION's cached state, not NOTIFICATIONS'. -/
theorem setLight_priority_resolution (bs : List LightBackend)
    (ty : LightType) (st s1 s2 : LightState) (h : Handler)
    (hh : findHandler ty (updateBackends ty st bs) = some h)
    (hlit : isLit s1 = true) :
    (setLight bs ty st).2.2
      = [(h, (resolveSpec h (updateBackends ty st bs)).getD st)] ∧
    (setLight (setLight initialBackends LightType.ATTENTION s1).2.1
        LightType.NOTIFICATIONS s2).2.2 = [(Handler.notification, s1)] := by
  constructor
  · rw [setLight_invocations bs ty st h hh, findLit_eq_resolveSpec]
  · have e1 : (setLight initialBackends LightType.ATTENTION s1).2.1
        = [⟨LightType.ATTENTION, s1, Handler.notification⟩,
           ⟨LightType.NOTIFICATIONS, initialLightState, Handler.notification⟩,
           ⟨LightType.BATTERY, initialLightState, Handler.notification⟩,
           ⟨LightType.BACKLIGHT, initialLightState, Handler.backlight⟩] := by
      rw [setLight_backends]
      simp [updateBackends, initialBackends]
    rw [e1]
    have e2 : updateBackends LightType.NOTIFICATIONS s2
        [⟨LightType.ATTENTION, s1, Handler.notification⟩,
         ⟨LightType.NOTIFICATIONS, initialLightState, Handler.notification⟩,
         ⟨LightType.BATTERY, initialLightState, Handler.notification⟩,
         ⟨LightType.BACKLIGHT, initialLightState, Handler.backlight⟩]
        = [⟨LightType.ATTENTION, s1, Handler.notification⟩,
           ⟨LightType.NOTIFICATIONS, s2, Handler.notification⟩,
           ⟨LightType.BATTERY, initialLightState, Handler.notification⟩,
           ⟨LightType.BACKLIGHT, initialLightState, Handler.backlight⟩] := by
      simp [updateBackends]
    have hfh : findHandler LightType.NOTIFICATIONS
        (updateBackends LightType.NOTIFICATIONS s2
          [⟨LightType.ATTENTION, s1, Handler.notification⟩,
           ⟨LightType.NOTIFICATIONS, initialLightState, Handler.notification⟩,
           ⟨LightType.BATTERY, initialLightState, Handler.notification⟩,
           ⟨LightType.BACKLIGHT, initialLightState, Handler.backlight⟩])
        = some Handler.notification := by
      rw [e2]
      rfl
    rw [setLight_invocations _ _ _ Handler.notification hfh, e2]
    simp [findLit, hlit]

/-- Witness for `setLight_priority_resolution` at BATTERY set to opaque
blue, with ATTENTION red and NOTIFICATIONS green for the scenario part. -/
theorem setLight_priority_resolution_witness :
    ((setLight initialBackends LightType.BATTERY
        ⟨0xFF0000FF, Flash.NONE, 0, 0⟩).2.2
      = [(Handler.notification,
          (resolveSpec Handler.notification
            (updateBackends LightType.BATTERY ⟨0xFF0000FF, Flash.NONE, 0, 0⟩
              initialBackends)).getD ⟨0xFF0000FF, Flash.NONE, 0, 0⟩)]) ∧
    (setLight (setLight initialBackends LightType.ATTENTION
        ⟨0xFFFF0000, Flash.NONE, 0, 0⟩).2.1 LightType.NOTIFICATIONS
        ⟨0xFF00FF00, Flash.NONE, 0, 0⟩).2.2
      = [(Handler.notification, ⟨0xFFFF0000, Flash.NONE, 0, 0⟩)] :=
  setLight_priority_resolution initialBackends LightType.BATTERY
    ⟨0xFF0000FF, Flash.NONE, 0, 0⟩ ⟨0xFFFF0000, Flash.NONE, 0, 0⟩
    ⟨0xFF00FF00, Flash.NONE, 0, 0⟩ Handler.notification (by decide)
    (by decide)

lemma isLit_false_brightness_zero (st : LightState)
    (hoff : isLit st = false) : getBrightness st = 0 := by
  have hc : st.color % 0x1000000 = 0 := by
    simpa [isLit] using hoff
  have hr : st.color / 0x10000 % 0x100 = 0 := by omega
  have hg : st.color / 0x100 % 0x100 = 0 := by omega
  have hb : st.color % 0x100 = 0 := by omega
  simp only [getBrightness]
  rw [hr, hg, hb]
  by_cases hα : st.color / 0x1000000 % 0x100 ≠ 0xFF <;> simp

lemma state_off_of_no_lit (bs : List LightBackend) (ty : LightType)
    (st : LightState) (h : Handler)
    (hh : findHandler ty (updateBackends ty st bs) = some h)
    (hnl : findLit h (updateBackends ty st bs) = none) :
    isLit st = false := by
  unfold findHandler at hh
  rcases Option.map_eq_some'.mp hh with ⟨bl, hbl, hblh⟩
  have hmem : bl ∈ (updateBackends ty st bs).filter
      (fun b => decide (b.type = ty)) := List.mem_of_getLast?_eq_some hbl
  rcases List.mem_filter.mp hmem with ⟨hmem', hblt⟩
  have hblty : bl.type = ty := of_decide_eq_true hblt
  have hstate : bl.state = st := by
    unfold updateBackends at hmem'
    rcases List.mem_map.mp hmem' with ⟨b0, _, hb0e⟩
    by_cases hc : b0.type = ty
    · rw [if_pos hc] at hb0e
      rw [← hb0e]
    · rw [if_neg hc] at hb0e
      exact absurd (hb0e ▸ hblty) hc
  unfold findLit at hnl
  have hall := List.find?_eq_none.mp (Option.map_eq_none'.mp hnl) bl hmem'
  simp [hblh, hstate] at hall
  exact hall

/-- C4 counterexample: from the initial backends, `setLight NOTIFICATIONS`
with an unlit state whose flash mode is TIMED invokes the handler with
that off state, but the writes re-enable blinking (`breath` ends at 1) and
contain no brightness write at all — the hardware does not turn off. -/
theorem setLight_alloff_timed_counterexample :
    (setLight initialBackends LightType.NOTIFICATIONS
        ⟨0xFF000000, Flash.TIMED, 100, 100⟩).2.2
      = [(Handler.notification, ⟨0xFF000000, Flash.TIMED, 100, 100⟩)] ∧
    setLightWrites ⟨some 255, some 255⟩
        (setLight initialBackends LightType.NOTIFICATIONS
          ⟨0xFF000000, Flash.TIMED, 100, 100⟩).2.2
      = [⟨WHITE_LED ++ BREATH, 0⟩, ⟨WHITE_LED ++ DELAY_OFF, 100⟩,
         ⟨WHITE_LED ++ DELAY_ON, 100⟩, ⟨WHITE_LED ++ BREATH, 1⟩] ∧
    (⟨WHITE_LED ++ BRIGHTNESS, 0⟩ : Write) ∉
      setLightWrites ⟨some 255, some 255⟩
        (setLight initialBackends LightType.NOTIFICATIONS
          ⟨0xFF000000, Flash.TIMED, 100, 100⟩).2.2 ∧
    (setLightWrites ⟨some 255, some 255⟩
        (setLight initialBackends LightType.NOTIFICATIONS
          ⟨0xFF000000, Flash.TIMED, 100, 100⟩).2.2).getLast?
      = some ⟨WHITE_LED ++ BREATH, 1⟩ := by
  decide

/-- C4 (amended): when after the cache update no backend sharing the
matching handler is lit, the handler is invoked exactly once with the
just-updated (off) state; provided that state's flash mode is not TIMED,
the rendered writes turn the hardware off — the backlight handler writes
brightness 0 and the notification handler writes `breath = 0` then
brightness 0 (a TIMED off state instead re-arms blinking, see the
counterexample). -/
theorem setLight_alloff_renders_off (bs : List LightBackend)
    (ty : LightType) (st : LightState) (h : Handler) (m : Nat)
    (o o' : Option Nat)
    (hh : findHandler ty (updateBackends ty st bs) = some h)
    (hnl : findLit h (updateBackends ty st bs) = none)
    (hmode : st.flashMode ≠ Flash.TIMED) :
    (setLight bs ty st).2.2 = [(h, st)] ∧
    handleBacklight ⟨some m, o⟩ st = [⟨LCD_LED ++ BRIGHTNESS, 0⟩] ∧
    handleNotification ⟨o', some m⟩ st =
      [⟨WHITE_LED ++ BREATH, 0⟩, ⟨WHITE_LED ++ BRIGHTNESS, 0⟩] := by
  have hoff := state_off_of_no_lit bs ty st h hh hnl
  have hb0 := isLit_false_brightness_zero st hoff
  refine ⟨?_, ?_, ?_⟩
  · rw [setLight_invocations bs ty st h hh, hnl]
    rfl
  · simp [handleBacklight, getScaledBrightness, hb0, scaleBrightness]
  · simp [handleNotification, hmode, getScaledBrightness, hb0,
      scaleBrightness]

/-- Witness for `setLight_alloff_renders_off`: NOTIFICATIONS set to an
unlit steady state from the initial (all-off) backends. -/
theorem setLight_alloff_renders_off_witness :
    (setLight initialBackends LightType.NOTIFICATIONS
        ⟨0xFF000000, Flash.NONE, 0, 0⟩).2.2
      = [(Handler.notification, ⟨0xFF000000, Flash.NONE, 0, 0⟩)] ∧
    handleBacklight ⟨some 255, none⟩ ⟨0xFF000000, Flash.NONE, 0, 0⟩
      = [⟨LCD_LED ++ BRIGHTNESS, 0⟩] ∧
    handleNotification ⟨none, some 255⟩ ⟨0xFF000000, Flash.NONE, 0, 0⟩
      = [⟨WHITE_LED ++ BREATH, 0⟩, ⟨WHITE_LED ++ BRIGHTNESS, 0⟩] :=
  setLight_alloff_renders_off initialBackends LightType.NOTIFICATIONS
    ⟨0xFF000000, Flash.NONE, 0, 0⟩ Handler.notification 255 none none
    (by decide) (by decide) (by decide)

/-- C2: on the call sequence that sets ATTENTION to opaque red and then
NOTIFICATIONS to opaque green, the `Light.cpp` implementation of `setLight`
invokes `handleNotification` with ATTENTION's cached (red) state while the
inline `Light.h` implementation invokes it with the just-set (green) state,
and the resulting device-write traces differ: the two implementations are
not observationally equivalent. -/
theorem setLight_impls_not_equivalent :
    (setLight (setLight initialBackends LightType.ATTENTION
        ⟨0xFFFF0000, Flash.NONE, 0, 0⟩).2.1 LightType.NOTIFICATIONS
        ⟨0xFF00FF00, Flash.NONE, 0, 0⟩).2.2
      = [(Handler.notification, ⟨0xFFFF0000, Flash.NONE, 0, 0⟩)] ∧
    (setLightHeader LightType.NOTIFICATIONS ⟨0xFF00FF00, Flash.NONE, 0, 0⟩
        (setLightHeader LightType.ATTENTION ⟨0xFFFF0000, Flash.NONE, 0, 0⟩
          initialBackends).2.1).2.2
      = [(Handler.notification, ⟨0xFF00FF00, Flash.NONE, 0, 0⟩)] ∧
    setLightWrites ⟨some 255, some 255⟩
        (setLight (setLight initialBackends LightType.ATTENTION
          ⟨0xFFFF0000, Flash.NONE, 0, 0⟩).2.1 LightType.NOTIFICATIONS
          ⟨0xFF00FF00, Flash.NONE, 0, 0⟩).2.2
      ≠ setLightWrites ⟨some 255, some 255⟩
        (setLightHeader LightType.NOTIFICATIONS ⟨0xFF00FF00, Flash.NONE, 0, 0⟩
          (setLightHeader LightType.ATTENTION ⟨0xFFFF0000, Flash.NONE, 0, 0⟩
            initialBackends).2.1).2.2 := by
  refine ⟨by decide, by decide, by decide⟩

/-- C5: for any state with `flashMode = TIMED`, when the white LED's
`max_brightness` is readable, `handleNotification` writes exactly
`breath = 0`, then `delay_off = flashOffMs`, then `delay_on = flashOnMs`,
then `breath = 1`, in that order, with no brightness write in between. -/
theorem handleNotification_timed_order (st : LightState) (m : Nat)
    (o : Option Nat) (hf : st.flashMode = Flash.TIMED) :
    handleNotification ⟨o, some m⟩ st =
      [⟨WHITE_LED ++ BREATH, 0⟩, ⟨WHITE_LED ++ DELAY_OFF, st.flashOffMs⟩,
       ⟨WHITE_LED ++ DELAY_ON, st.flashOnMs⟩, ⟨WHITE_LED ++ BREATH, 1⟩] := by
  simp [handleNotification, hf]

/-- Witness for `handleNotification_timed_order` at a concrete state. -/
theorem handleNotification_timed_order_witness :
    handleNotification ⟨none, some 255⟩ ⟨0xFFFF0000, Flash.TIMED, 500, 1000⟩ =
      [⟨WHITE_LED ++ BREATH, 0⟩, ⟨WHITE_LED ++ DELAY_OFF, 1000⟩,
       ⟨WHITE_LED ++ DELAY_ON, 500⟩, ⟨WHITE_LED ++ BREATH, 1⟩] :=
  handleNotification_timed_order ⟨0xFFFF0000, Flash.TIMED, 500, 1000⟩ 255 none
    rfl

/-- C8: after any sequence of `setLight` calls, `getSupportedTypes` returns
`[ATTENTION, NOTIFICATIONS, BATTERY, BACKLIGHT]` in that fixed order,
independent of the call history, touching no cached state and issuing no
device write. -/
theorem getSupportedTypes_fixed (calls : List (LightType × LightState)) :
    getSupportedTypes (runCalls initialBackends calls) = supportedTypes := by
  rw [getSupportedTypes_runCalls]
  rfl

/-- C6 counterexample: `scaleBrightness` computes `(luma * maxBrightness)`
in `uint32_t`, which wraps modulo `2 ^ 32` before the division by 255, so
for `maxBrightness = 0x80000000` and the luma 149 of opaque green the
result differs from the reference `(luma * maxBrightness) / 255`. -/
theorem scaleBrightness_overflow_counterexample :
    ¬ (scaleBrightness (getBrightness ⟨0xFF00FF00, Flash.NONE, 0, 0⟩)
        0x80000000
      = getBrightness ⟨0xFF00FF00, Flash.NONE, 0, 0⟩ * 0x80000000 / 255) := by
  decide

/-- C6 (amended): `getBrightness` equals the spec's reference luma for every
color; `scaleBrightness` equals the reference `(luma * maxBrightness) / 255`
whenever the product stays below `2 ^ 32` (it wraps modulo `2 ^ 32`
otherwise); and the concrete instances: opaque green has luma 149 and
scales to 149 at `maxBrightness = 255`, and green at alpha `0x80` has
luma 75. -/
theorem brightness_conversion_reference (st : LightState) (b m : Nat)
    (hbm : b * m < 0x100000000) :
    getBrightness st = lumaRef st.color ∧
    scaleBrightness b m = b * m / 255 ∧
    getBrightness ⟨0xFF00FF00, Flash.NONE, 0, 0⟩ = 149 ∧
    getScaledBrightness ⟨0xFF00FF00, Flash.NONE, 0, 0⟩ 255 = 149 ∧
    getBrightness ⟨0x8000FF00, Flash.NONE, 0, 0⟩ = 75 := by
  refine ⟨?_, ?_, by decide, by decide, by decide⟩
  · simp only [getBrightness, lumaRef]
    by_cases hα : st.color / 0x1000000 % 0x100 ≠ 0xFF
    · rw [if_pos hα, if_pos hα, if_pos hα, if_pos hα]
      norm_num
    · rw [if_neg hα, if_neg hα, if_neg hα, if_neg hα]
      norm_num
  · unfold scaleBrightness
    rw [Nat.mod_eq_of_lt hbm]

/-- Witness for `brightness_conversion_reference` at luma 149 and
maximum brightness 255. -/
theorem brightness_conversion_reference_witness :
    getBrightness ⟨0xFF00FF00, Flash.NONE, 0, 0⟩ = lumaRef 0xFF00FF00 ∧
    scaleBrightness 149 255 = 149 * 255 / 255 ∧
    getBrightness ⟨0xFF00FF00, Flash.NONE, 0, 0⟩ = 149 ∧
    getScaledBrightness ⟨0xFF00FF00, Flash.NONE, 0, 0⟩ 255 = 149 ∧
    getBrightness ⟨0x8000FF00, Flash.NONE, 0, 0⟩ = 75 :=
  brightness_conversion_reference ⟨0xFF00FF00, Flash.NONE, 0, 0⟩ 149 255
    (by decide)

/-- C3: after any call history, `setLight` on a type with no backend
returns `LIGHT_NOT_SUPPORTED`, leaves every cached state unchanged and
issues zero device writes; on any of the four configured types it returns
`SUCCESS`. -/
theorem setLight_supported_partition (calls : List (LightType × LightState))
    (ty : LightType) (st : LightState) (env : Env) :
    (ty ∉ supportedTypes →
      setLight (runCalls initialBackends calls) ty st
        = (Status.LIGHT_NOT_SUPPORTED, runCalls initialBackends calls, []) ∧
      setLightWrites env
        (setLight (runCalls initialBackends calls) ty st).2.2 = []) ∧
    (ty ∈ supportedTypes →
      (setLight (runCalls initialBackends calls) ty st).1
        = Status.SUCCESS) := by
  constructor
  · intro hns
    have hno : ∀ b ∈ runCalls initialBackends calls, b.type ≠ ty := by
      intro b hb hbt
      exact hns (types_runCalls calls ▸
        (show ty ∈ getSupportedTypes (runCalls initialBackends calls) from
          List.mem_map.mpr ⟨b, hb, hbt⟩))
    have hupd := updateBackends_id ty st (runCalls initialBackends calls) hno
    have hfh : findHandler ty
        (updateBackends ty st (runCalls initialBackends calls)) = none := by
      rw [hupd]
      exact findHandler_none ty _ hno
    have hmain : setLight (runCalls initialBackends calls) ty st
        = (Status.LIGHT_NOT_SUPPORTED, runCalls initialBackends calls, []) := by
      simp only [setLight]
      rw [hfh, hupd]
    exact ⟨hmain, by rw [hmain]; rfl⟩
  · intro hsup
    exact setLight_status_success _ ty st
      (exists_backend_of_mem_types ty _ (by rw [types_runCalls]; exact hsup))

/-- Witness for `setLight_supported_partition`: KEYBOARD is rejected with
no effect, BACKLIGHT succeeds. -/
theorem setLight_supported_partition_witness :
    (setLight (runCalls initialBackends []) LightType.KEYBOARD
        ⟨0xFF000000, Flash.NONE, 0, 0⟩
      = (Status.LIGHT_NOT_SUPPORTED, runCalls initialBackends [], []) ∧
     setLightWrites ⟨some 255, some 255⟩
        (setLight (runCalls initialBackends []) LightType.KEYBOARD
          ⟨0xFF000000, Flash.NONE, 0, 0⟩).2.2 = []) ∧
    (setLight (runCalls initialBackends []) LightType.BACKLIGHT
        ⟨0xFF000000, Flash.NONE, 0, 0⟩).1 = Status.SUCCESS :=
  ⟨(setLight_supported_partition [] LightType.KEYBOARD
      ⟨0xFF000000, Flash.NONE, 0, 0⟩ ⟨some 255, some 255⟩).1 (by decide),
   (setLight_supported_partition [] LightType.BACKLIGHT
      ⟨0xFF000000, Flash.NONE, 0, 0⟩ ⟨some 255, some 255⟩).2 (by decide)⟩

/-- C7: if a render handler's `max_brightness` read fails, that handler
issues zero device writes, and `setLight` on any configured type still
returns `SUCCESS` (the status never depends on device-file availability). -/
theorem unreadable_max_no_writes (st : LightState) (o o' : Option Nat)
    (calls : List (LightType × LightState)) (ty : LightType)
    (hty : ty ∈ supportedTypes) :
    handleBacklight ⟨none, o⟩ st = [] ∧
    handleNotification ⟨o', none⟩ st = [] ∧
    (setLight (runCalls initialBackends calls) ty st).1
      = Status.SUCCESS := by
  refine ⟨rfl, rfl, ?_⟩
  exact setLight_status_success _ ty st
    (exists_backend_of_mem_types ty _ (by rw [types_runCalls]; exact hty))

/-- Witness for `unreadable_max_no_writes` at BACKLIGHT with both
attributes unreadable. -/
theorem unreadable_max_no_writes_witness :
    handleBacklight ⟨none, none⟩ ⟨0xFFFFFFFF, Flash.NONE, 0, 0⟩ = [] ∧
    handleNotification ⟨none, none⟩ ⟨0xFFFFFFFF, Flash.NONE, 0, 0⟩ = [] ∧
    (setLight (runCalls initialBackends []) LightType.BACKLIGHT
        ⟨0xFFFFFFFF, Flash.NONE, 0, 0⟩).1 = Status.SUCCESS :=
  unreadable_max_no_writes ⟨0xFFFFFFFF, Flash.NONE, 0, 0⟩ none none []
    LightType.BACKLIGHT (by decide)

lemma runCalls_eq_map (calls : List (LightType × LightState)) :
    ∀ bs : List LightBackend,
      runCalls bs calls = bs.map (fun b => applyCallsTo b calls) := by
  induction calls with
  | nil =>
      intro bs
      simp [runCalls, applyCallsTo]
  | cons c cs ih =>
      intro bs
      rw [runCalls, setLight_backends, ih, updateBackends, List.map_map]
      apply List.map_congr_left
      intro b _
      rfl

lemma applyCallsTo_eq (calls : List (LightType × LightState)) :
    ∀ b : LightBackend, applyCallsTo b calls
      = { b with state := (lastSet b.type calls).getD b.state } := by
  induction calls with
  | nil => intro b; rfl
  | cons c cs ih =>
      intro b
      have step : applyCallsTo b (c :: cs)
          = applyCallsTo (if b.type = c.1 then { b with state := c.2 } else b)
              cs := rfl
      rw [step]
      by_cases hc : b.type = c.1
      · rw [if_pos hc, ih]
        cases hls : lastSet b.type cs with
        | none => simp [lastSet, hls, hc.symm]
        | some s => simp [lastSet, hls]
      · rw [if_neg hc, ih]
        cases hls : lastSet b.type cs with
        | none => simp [lastSet, hls, Ne.symm hc]
        | some s => simp [lastSet, hls]

/-- C10: after any sequence of `setLight` calls, each backend's cached
state equals the state of the most recent call for its type, or the
initial off state if none occurred; and a single `setLight` call leaves
every backend of a different type unchanged. -/
theorem cachedState_history (calls : List (LightType × LightState))
    (b : LightBackend) (hb : b ∈ runCalls initialBackends calls) :
    b.state = (lastSet b.type calls).getD initialLightState ∧
    (∀ (bs : List LightBackend) (ty : LightType) (st : LightState)
      (b' : LightBackend), b' ∈ bs → b'.type ≠ ty →
        b' ∈ (setLight bs ty st).2.1) := by
  constructor
  · rw [runCalls_eq_map] at hb
    rcases List.mem_map.mp hb with ⟨b0, hb0, hb0e⟩
    rw [applyCallsTo_eq] at hb0e
    have hstate : b0.state = initialLightState := by
      simp [initialBackends] at hb0
      rcases hb0 with h1 | h1 | h1 | h1 <;> rw [h1]
    rw [← hb0e]
    simp [hstate]
  · intro bs ty st b' hb' hne
    rw [setLight_backends]
    unfold updateBackends
    refine List.mem_map.mpr ⟨b', hb', ?_⟩
    rw [if_neg hne]

/-- Witness for `cachedState_history`: a BATTERY call leaves ATTENTION's
cached state at the initial off state. -/
theorem cachedState_history_witness :
    (⟨LightType.ATTENTION, initialLightState, Handler.notification⟩ :
        LightBackend).state
      = (lastSet
          (⟨LightType.ATTENTION, initialLightState, Handler.notification⟩ :
            LightBackend).type
          [(LightType.BATTERY, ⟨0xFF00FF00, Flash.NONE, 0, 0⟩)]).getD
          initialLightState :=
  (cachedState_history [(LightType.BATTERY, ⟨0xFF00FF00, Flash.NONE, 0, 0⟩)]
    ⟨LightType.ATTENTION, initialLightState, Handler.notification⟩
    (by decide)).1

/-- C9: for every 32-bit ARGB color the computed luma lies in `0..255`, and
for every `maxBrightness` the scaled hardware brightness is at most
`maxBrightness`. -/
theorem getBrightness_range_scale_bounded (st : LightState) (m : Nat) :
    getBrightness st ≤ 255 ∧ getScaledBrightness st m ≤ m :=
  ⟨getBrightness_le st, scaleBrightness_le _ m (getBrightness_le st)⟩

end LightHAL
